import Mathlib

/-!
Shallow embedding of the travelogue-compass route store and map adapters.

Sources embedded here:
* `src/contexts/RoutesContext.tsx` — the route-state store (`RoutesProvider`):
  data model (`RoutePoint`, `SavedRoute`), `safeParseRoutes`,
  `sanitizeRoutesForStorage`, the demo `initialRoutes`, and the operations
  `addRoute`, `deleteRoute`, `updateRoute`, `addPointToCurrentRoute`,
  `clearCurrentRoute`, `startRecording`, `stopRecording`, `addMediaToPoint`,
  `getRoute`, plus the localStorage persistence effect.
* `src/components/map/LeafletMap.tsx`, and the Yandex and Mapbox adapters —
  `calculateDistance` (haversine accumulation) and `searchPlaces`.

Modelling conventions:
* Every JavaScript number (coordinates, timestamps, distances, durations) is a
  real number `ℝ`; `Math.floor` is `Int.floor`, `Math.round x` is
  `Int.floor (x + 1/2)` (JS rounds half toward +∞).
* `Date.now()` and locale date strings are inputs threaded explicitly through
  an environment record, since they are ambient effects in the source.
* JSON values are the inductive `Json`; `JSON.stringify`/`JSON.parse` of the
  stored string is modelled at the value level: the raw stored cell is either
  absent, malformed (a string `JSON.parse` throws on), or a parsed `Json`
  value.  `JSON.stringify` dropping `undefined`-valued properties is modelled
  by the encoders emitting optional fields conditionally.
-/

namespace Travelogue

/-- Media attachment kind, the `"photo" | "video"` union in the source. -/
inductive MediaType where
  | photo
  | video
deriving DecidableEq, Repr

/-- One media attachment: `{ type; url; caption? }` in `RoutesContext.tsx`. -/
structure MediaItem where
  type : MediaType
  url : String
  caption : Option String
deriving DecidableEq, Repr

/-- A GPS fix, interface `RoutePoint` of `RoutesContext.tsx`. -/
structure RoutePoint where
  id : String
  coordinates : ℝ × ℝ
  timestamp : ℝ
  media : Option (List MediaItem)

/-- Transport mode union `"walk" | "bike" | "car" | "transit"`. -/
inductive TransportType where
  | walk
  | bike
  | car
  | transit
deriving DecidableEq, Repr

/-- Route kind union `"segment" | "bundle"`. -/
inductive RouteKind where
  | segment
  | bundle
deriving DecidableEq, Repr

/-- Route provenance union `"recorded" | "directions"`. -/
inductive RouteSource where
  | recorded
  | directions
deriving DecidableEq, Repr

/-- A saved route, interface `SavedRoute` of `RoutesContext.tsx`; optional
TypeScript fields become `Option`s. -/
structure SavedRoute where
  id : String
  name : String
  city : String
  date : String
  transportType : TransportType
  points : List RoutePoint
  distance : ℝ
  duration : ℝ
  thumbnail : Option String
  kind : Option RouteKind
  source : Option RouteSource
  parentBundleId : Option String
  childrenIds : Option (List String)
  isFavorite : Option Bool
  createdAt : Option ℝ

/-- The scheme test string of `sanitizeRoutesForStorage`. -/
def blobScheme : String := "blob:"

/-- Store operation `addRoute`: `setRoutes((prev) => [route, ...prev])`. -/
def addRoute (route : SavedRoute) (routes : List SavedRoute) : List SavedRoute :=
  route :: routes

/-- Store operation `deleteRoute`:
`setRoutes((prev) => prev.filter((r) => r.id !== id))`. -/
def deleteRoute (id : String) (routes : List SavedRoute) : List SavedRoute :=
  routes.filter (fun r => r.id != id)

/-- A `Partial<SavedRoute>`: each field optionally present.  An optional field
of `SavedRoute` that is present in the partial carries its full `Option` type. -/
structure RouteUpdates where
  id : Option String := none
  name : Option String := none
  city : Option String := none
  date : Option String := none
  transportType : Option TransportType := none
  points : Option (List RoutePoint) := none
  distance : Option ℝ := none
  duration : Option ℝ := none
  thumbnail : Option (Option String) := none
  kind : Option (Option RouteKind) := none
  source : Option (Option RouteSource) := none
  parentBundleId : Option (Option String) := none
  childrenIds : Option (Option (List String)) := none
  isFavorite : Option (Option Bool) := none
  createdAt : Option (Option ℝ) := none

/-- The object spread `{ ...r, ...updates }`: a present update field wins. -/
def applySpread (r : SavedRoute) (u : RouteUpdates) : SavedRoute where
  id := u.id.getD r.id
  name := u.name.getD r.name
  city := u.city.getD r.city
  date := u.date.getD r.date
  transportType := u.transportType.getD r.transportType
  points := u.points.getD r.points
  distance := u.distance.getD r.distance
  duration := u.duration.getD r.duration
  thumbnail := u.thumbnail.getD r.thumbnail
  kind := u.kind.getD r.kind
  source := u.source.getD r.source
  parentBundleId := u.parentBundleId.getD r.parentBundleId
  childrenIds := u.childrenIds.getD r.childrenIds
  isFavorite := u.isFavorite.getD r.isFavorite
  createdAt := u.createdAt.getD r.createdAt

/-- Store operation `updateRoute`:
`prev.map((r) => (r.id === id ? { ...r, ...updates } : r))`. -/
def updateRoute (id : String) (u : RouteUpdates) (routes : List SavedRoute) :
    List SavedRoute :=
  routes.map (fun r => if r.id == id then applySpread r u else r)

/-- Store operation `addPointToCurrentRoute`:
`setCurrentRoute((prev) => [...prev, point])`. -/
def addPointToCurrentRoute (point : RoutePoint) (cur : List RoutePoint) :
    List RoutePoint :=
  cur ++ [point]

/-- Store operation `addMediaToPoint`: in the route matching `routeId`, append
`media` to the media list of the point matching `pointId`
(`[...(point.media || []), { ...media }]`); all else untouched. -/
def addMediaToPoint (routeId pointId : String) (media : MediaItem)
    (routes : List SavedRoute) : List SavedRoute :=
  routes.map (fun route =>
    if route.id != routeId then route
    else
      { route with
        points := route.points.map (fun point =>
          if point.id != pointId then point
          else { point with media := some (point.media.getD [] ++ [media]) }) })

/-- Store operation `getRoute`: `routes.find((r) => r.id === id)`. -/
def getRoute (id : String) (routes : List SavedRoute) : Option SavedRoute :=
  routes.find? (fun r => r.id == id)

/-- Store operation `sanitizeRoutesForStorage`: drop every media item whose URL
starts with `blob:` from every point of every route. -/
def sanitizeRoutesForStorage (routes : List SavedRoute) : List SavedRoute :=
  routes.map (fun r =>
    { r with
      points := r.points.map (fun p =>
        { p with
          media := p.media.map (fun ms =>
            ms.filter (fun m => !(m.url.startsWith blobScheme))) }) })

/-! ### Haversine distance (stopRecording loop and the three map adapters) -/

/-- JS `Math.atan2 y x`, written piecewise from `Real.arctan` following the
ECMAScript specification for finite arguments. -/
noncomputable def atan2 (y x : ℝ) : ℝ :=
  if 0 < x then Real.arctan (y / x)
  else if x < 0 then
    (if y < 0 then Real.arctan (y / x) - Real.pi else Real.arctan (y / x) + Real.pi)
  else if 0 < y then Real.pi / 2
  else if y < 0 then -(Real.pi / 2)
  else 0

/-- JS `Math.floor`, as a real-valued function. -/
noncomputable def jsFloor (x : ℝ) : ℝ := (Int.floor x : ℝ)

/-- JS `Math.round`: round half toward positive infinity. -/
noncomputable def jsRound (x : ℝ) : ℝ := (Int.floor (x + 1 / 2) : ℝ)

/-- One iteration of the haversine loop shared verbatim by `stopRecording` and
the three adapters' `calculateDistance`: the `R * c` contribution of one
consecutive pair of `[lat, lon]` coordinates, with `R = 6371`. -/
noncomputable def havStep (p1 p2 : ℝ × ℝ) : ℝ :=
  let lat1 := p1.1
  let lon1 := p1.2
  let lat2 := p2.1
  let lon2 := p2.2
  let R : ℝ := 6371
  let dLat := (lat2 - lat1) * Real.pi / 180
  let dLon := (lon2 - lon1) * Real.pi / 180
  let a := Real.sin (dLat / 2) * Real.sin (dLat / 2) +
    Real.cos (lat1 * Real.pi / 180) * Real.cos (lat2 * Real.pi / 180) *
      Real.sin (dLon / 2) * Real.sin (dLon / 2)
  let c := 2 * atan2 (Real.sqrt a) (Real.sqrt (1 - a))
  R * c

/-- The distance loop of `stopRecording`:
`for (let i = 1; i < n; i++) distance += havStep(points[i-1], points[i])`,
re-indexed by `j = i - 1` over `List.range (n - 1)`.  The `getD` default is
never reached since every index is in bounds. -/
noncomputable def distanceLoop (pts : List (ℝ × ℝ)) : ℝ :=
  (List.range (pts.length - 1)).foldl
    (fun acc j => acc + havStep (pts.getD j (0, 0)) (pts.getD (j + 1) (0, 0))) 0

/-- `calculateDistance` of `LeafletMap.tsx`: `0` for fewer than two points,
otherwise the haversine accumulation loop. -/
noncomputable def leafletCalculateDistance (pts : List (ℝ × ℝ)) : ℝ :=
  if pts.length < 2 then 0
  else
    (List.range (pts.length - 1)).foldl
      (fun acc j => acc + havStep (pts.getD j (0, 0)) (pts.getD (j + 1) (0, 0))) 0

/-- `calculateDistance` of the Yandex adapter (identical source text). -/
noncomputable def yandexCalculateDistance (pts : List (ℝ × ℝ)) : ℝ :=
  if pts.length < 2 then 0
  else
    (List.range (pts.length - 1)).foldl
      (fun acc j => acc + havStep (pts.getD j (0, 0)) (pts.getD (j + 1) (0, 0))) 0

/-- `calculateDistance` of the Mapbox adapter (identical source text). -/
noncomputable def mapboxCalculateDistance (pts : List (ℝ × ℝ)) : ℝ :=
  if pts.length < 2 then 0
  else
    (List.range (pts.length - 1)).foldl
      (fun acc j => acc + havStep (pts.getD j (0, 0)) (pts.getD (j + 1) (0, 0))) 0

/-- Specification-side reading of the loop: the sum over consecutive point
pairs of the haversine step. -/
noncomputable def havPairSum (pts : List (ℝ × ℝ)) : ℝ :=
  ((pts.zip pts.tail).map (fun pq => havStep pq.1 pq.2)).sum

/-! ### Provider state and the recording operations -/

/-- The mutable state of `RoutesProvider`. -/
structure ProviderState where
  routes : List SavedRoute
  currentRoute : List RoutePoint
  isRecording : Bool
  recordingStartTime : Option ℝ

/-- Ambient inputs of `stopRecording`: `Date.now()` (as a number and as the
string interpolated into the route id) and the two locale date renderings. -/
structure RecorderEnv where
  now : ℝ
  nowStr : String
  localeDateFull : String
  localeDateShort : String

/-- Prefix of the generated route id, from `` `route-${Date.now()}` ``. -/
def routeIdStr : String := "route-"

/-- Prefix of the generated route name. -/
def routeNameStr : String := "Маршрут "

/-- The fixed city of a freshly recorded route. -/
def currentCityStr : String := "Текущее местоположение"

/-- Store operation `startRecording`. -/
def startRecording (now : ℝ) (s : ProviderState) : ProviderState :=
  { s with isRecording := true, currentRoute := [], recordingStartTime := some now }

/-- Store operation `clearCurrentRoute`. -/
def clearCurrentRoute (s : ProviderState) : ProviderState :=
  { s with currentRoute := [] }

/-- Store operation `stopRecording`: returns the route it saved (if any)
together with the updated provider state. -/
noncomputable def stopRecording (env : RecorderEnv) (s : ProviderState) :
    Option SavedRoute × ProviderState :=
  if s.currentRoute.length < 2 then
    (none,
      { s with isRecording := false, currentRoute := [], recordingStartTime := none })
  else
    let duration : ℝ :=
      match s.recordingStartTime with
      | some t0 => jsFloor ((env.now - t0) / 60000)
      | none => 0
    let distance : ℝ := distanceLoop (s.currentRoute.map (fun p => p.coordinates))
    let newRoute : SavedRoute :=
      { id := routeIdStr ++ env.nowStr
        name := routeNameStr ++ env.localeDateFull
        city := currentCityStr
        date := env.localeDateShort
        transportType := TransportType.walk
        points := s.currentRoute
        distance := jsRound (distance * 100) / 100
        duration := duration
        thumbnail := none
        kind := none
        source := none
        parentBundleId := none
        childrenIds := none
        isFavorite := none
        createdAt := none }
    (some newRoute,
      { s with
        isRecording := false
        routes := addRoute newRoute s.routes
        currentRoute := []
        recordingStartTime := none })

/-! ### JSON values, serialization, and the localStorage persistence layer -/

/-- JSON values, with JS numbers as reals. -/
inductive Json where
  | null
  | bool (b : Bool)
  | num (x : ℝ)
  | str (s : String)
  | arr (elems : List Json)
  | obj (fields : List (String × Json))

/-- String rendering of a `MediaType`, as it appears in JSON. -/
def mtStr : MediaType → String
  | MediaType.photo => "photo"
  | MediaType.video => "video"

/-- Inverse of `mtStr`. -/
def mtOfStr (s : String) : Option MediaType :=
  if s == mtStr MediaType.photo then some MediaType.photo
  else if s == mtStr MediaType.video then some MediaType.video
  else none

/-- String rendering of a `TransportType`. -/
def ttStr : TransportType → String
  | TransportType.walk => "walk"
  | TransportType.bike => "bike"
  | TransportType.car => "car"
  | TransportType.transit => "transit"

/-- Inverse of `ttStr`. -/
def ttOfStr (s : String) : Option TransportType :=
  if s == ttStr TransportType.walk then some TransportType.walk
  else if s == ttStr TransportType.bike then some TransportType.bike
  else if s == ttStr TransportType.car then some TransportType.car
  else if s == ttStr TransportType.transit then some TransportType.transit
  else none

/-- String rendering of a `RouteKind`. -/
def kindStr : RouteKind → String
  | RouteKind.segment => "segment"
  | RouteKind.bundle => "bundle"

/-- Inverse of `kindStr`. -/
def kindOfStr (s : String) : Option RouteKind :=
  if s == kindStr RouteKind.segment then some RouteKind.segment
  else if s == kindStr RouteKind.bundle then some RouteKind.bundle
  else none

/-- String rendering of a `RouteSource`. -/
def srcStr : RouteSource → String
  | RouteSource.recorded => "recorded"
  | RouteSource.directions => "directions"

/-- Inverse of `srcStr`. -/
def srcOfStr (s : String) : Option RouteSource :=
  if s == srcStr RouteSource.recorded then some RouteSource.recorded
  else if s == srcStr RouteSource.directions then some RouteSource.directions
  else none

/-- JSON object field lookup by key. -/
def jGet (fields : List (String × Json)) (k : String) : Option Json :=
  (fields.find? (fun f => f.1 == k)).map (fun f => f.2)

/-- Emit an optional JSON field: `JSON.stringify` drops `undefined` values. -/
def optField (k : String) : Option Json → List (String × Json)
  | some j => [(k, j)]
  | none => []

/-- JSON field names used by the route data model. -/
def keyType : String := "type"

def keyUrl : String := "url"

def keyCaption : String := "caption"

def keyId : String := "id"

def keyCoordinates : String := "coordinates"

def keyTimestamp : String := "timestamp"

def keyMedia : String := "media"

def keyName : String := "name"

def keyCity : String := "city"

def keyDate : String := "date"

def keyTransportType : String := "transportType"

def keyPoints : String := "points"

def keyDistance : String := "distance"

def keyDuration : String := "duration"

def keyThumbnail : String := "thumbnail"

def keyKind : String := "kind"

def keySource : String := "source"

def keyParentBundleId : String := "parentBundleId"

def keyChildrenIds : String := "childrenIds"

def keyIsFavorite : String := "isFavorite"

def keyCreatedAt : String := "createdAt"

/-- JSON image of a `MediaItem`. -/
def encodeMedia (m : MediaItem) : Json :=
  Json.obj ([(keyType, Json.str (mtStr m.type)), (keyUrl, Json.str m.url)] ++
    optField keyCaption (m.caption.map Json.str))

/-- JSON image of a `RoutePoint`. -/
def encodePoint (p : RoutePoint) : Json :=
  Json.obj ([(keyId, Json.str p.id),
      (keyCoordinates, Json.arr [Json.num p.coordinates.1, Json.num p.coordinates.2]),
      (keyTimestamp, Json.num p.timestamp)] ++
    optField keyMedia (p.media.map (fun ms => Json.arr (ms.map encodeMedia))))

/-- JSON image of a `SavedRoute`. -/
def encodeRoute (r : SavedRoute) : Json :=
  Json.obj ([(keyId, Json.str r.id),
      (keyName, Json.str r.name),
      (keyCity, Json.str r.city),
      (keyDate, Json.str r.date),
      (keyTransportType, Json.str (ttStr r.transportType)),
      (keyPoints, Json.arr (r.points.map encodePoint)),
      (keyDistance, Json.num r.distance),
      (keyDuration, Json.num r.duration)] ++
    optField keyThumbnail (r.thumbnail.map Json.str) ++
    optField keyKind (r.kind.map (fun k => Json.str (kindStr k))) ++
    optField keySource (r.source.map (fun k => Json.str (srcStr k))) ++
    optField keyParentBundleId (r.parentBundleId.map Json.str) ++
    optField keyChildrenIds (r.childrenIds.map (fun l => Json.arr (l.map Json.str))) ++
    optField keyIsFavorite (r.isFavorite.map Json.bool) ++
    optField keyCreatedAt (r.createdAt.map Json.num))

/-- JSON image of a route list. -/
def encodeRoutes (rs : List SavedRoute) : Json :=
  Json.arr (rs.map encodeRoute)

/-- Expect a JSON string. -/
def asStr : Json → Option String
  | Json.str s => some s
  | _ => none

/-- Expect a JSON number. -/
def asNum : Json → Option ℝ
  | Json.num x => some x
  | _ => none

/-- Expect a JSON boolean. -/
def asBool : Json → Option Bool
  | Json.bool b => some b
  | _ => none

/-- Expect a JSON array. -/
def asArr : Json → Option (List Json)
  | Json.arr xs => some xs
  | _ => none

/-- Decode every element of a JSON list, failing if any element fails. -/
def decodeJsonList {α : Type} (dec : Json → Option α) : List Json → Option (List α)
  | [] => some []
  | j :: js =>
    match dec j, decodeJsonList dec js with
    | some a, some rest => some (a :: rest)
    | _, _ => none

/-- Decode an optional field: absent is fine, present-but-ill-typed fails. -/
def decOptField {α : Type} (dec : Json → Option α) : Option Json → Option (Option α)
  | none => some none
  | some j => (dec j).map some

/-- Partial inverse of `encodeMedia`: reads a `MediaItem` off a JSON value. -/
def decodeMedia (j : Json) : Option MediaItem :=
  match j with
  | Json.obj fs => do
    let t ← jGet fs keyType >>= asStr
    let mt ← mtOfStr t
    let u ← jGet fs keyUrl >>= asStr
    let cap ← decOptField asStr (jGet fs keyCaption)
    pure { type := mt, url := u, caption := cap }
  | _ => none

/-- Partial inverse of `encodePoint`. -/
def decodePoint (j : Json) : Option RoutePoint :=
  match j with
  | Json.obj fs => do
    let i ← jGet fs keyId >>= asStr
    let cs ← jGet fs keyCoordinates >>= asArr
    let coords ←
      match cs with
      | [Json.num a, Json.num b] => some ((a, b) : ℝ × ℝ)
      | _ => none
    let ts ← jGet fs keyTimestamp >>= asNum
    let med ← decOptField (fun m => asArr m >>= decodeJsonList decodeMedia) (jGet fs keyMedia)
    pure { id := i, coordinates := coords, timestamp := ts, media := med }
  | _ => none

/-- Partial inverse of `encodeRoute`. -/
def decodeRoute (j : Json) : Option SavedRoute :=
  match j with
  | Json.obj fs => do
    let i ← jGet fs keyId >>= asStr
    let nm ← jGet fs keyName >>= asStr
    let ct ← jGet fs keyCity >>= asStr
    let dt ← jGet fs keyDate >>= asStr
    let tt ← jGet fs keyTransportType >>= asStr >>= ttOfStr
    let ps ← jGet fs keyPoints >>= asArr >>= decodeJsonList decodePoint
    let dist ← jGet fs keyDistance >>= asNum
    let dur ← jGet fs keyDuration >>= asNum
    let th ← decOptField asStr (jGet fs keyThumbnail)
    let kd ← decOptField (fun x => asStr x >>= kindOfStr) (jGet fs keyKind)
    let sr ← decOptField (fun x => asStr x >>= srcOfStr) (jGet fs keySource)
    let pb ← decOptField asStr (jGet fs keyParentBundleId)
    let ch ← decOptField (fun x => asArr x >>= decodeJsonList asStr) (jGet fs keyChildrenIds)
    let fav ← decOptField asBool (jGet fs keyIsFavorite)
    let ca ← decOptField asNum (jGet fs keyCreatedAt)
    pure { id := i, name := nm, city := ct, date := dt, transportType := tt,
           points := ps, distance := dist, duration := dur, thumbnail := th,
           kind := kd, source := sr, parentBundleId := pb, childrenIds := ch,
           isFavorite := fav, createdAt := ca }
  | _ => none

/-- The raw content of the localStorage cell: absent (`getItem` returned
`null`, or the empty string — both falsy), a string `JSON.parse` throws on, or
a string that parses to a JSON value. -/
inductive RawStored where
  | absent
  | malformed
  | parsed (j : Json)

/-- Store helper `safeParseRoutes`: `null`/malformed input and non-arrays give
`null`; an array is returned as the route list.  The per-element
`decodeJsonList decodeRoute` models the implicit `as SavedRoute[]` typing of
the untyped `JSON.parse` result; every claim settled here only exercises it on
arrays of well-formed route objects or on the empty array, where it coincides
with the source's behaviour of returning the parsed array unchanged. -/
def safeParseRoutes (raw : RawStored) : Option (List SavedRoute) :=
  match raw with
  | RawStored.absent => none
  | RawStored.malformed => none
  | RawStored.parsed j =>
    match j with
    | Json.arr xs => decodeJsonList decodeRoute xs
    | _ => none

/-- The localStorage key `STORAGE_KEY`. -/
def storageKey : String := "travelogue.routes.v1"

/-- The persistence effect
`localStorage.setItem(STORAGE_KEY, JSON.stringify(sanitizeRoutesForStorage(routes)))`,
modelled at the JSON-value level: stringifying a value and parsing the stored
string back yields that value, so the cell afterwards holds
`parsed (encodeRoutes (sanitized routes))`. -/
def persistEffect (st : String → RawStored) (routes : List SavedRoute) :
    String → RawStored :=
  fun k =>
    if k == storageKey then
      RawStored.parsed (encodeRoutes (sanitizeRoutesForStorage routes))
    else st k

/-- Thumbnail URL of the first demo route. -/
def demo1Thumb : String :=
  "https://images.unsplash.com/photo-1583422409516-2895a77efded?w=200&h=200&fit=crop"

/-- Thumbnail URL of the second demo route. -/
def demo2Thumb : String :=
  "https://images.unsplash.com/photo-1540959733332-eab4deabeeaf?w=200&h=200&fit=crop"

/-- Thumbnail URL of the third demo route. -/
def demo3Thumb : String :=
  "https://images.unsplash.com/photo-1502602898657-3e91760cbb34?w=200&h=200&fit=crop"

/-- The three built-in demo routes, parameterized by the module-load
`Date.now()` value used in their point timestamps. -/
def initialRoutes (now : ℝ) : List SavedRoute :=
  [{ id := "demo-1"
     name := "Готический квартал"
     city := "Барселона"
     date := "15 янв 2024"
     transportType := TransportType.walk
     points := [
       { id := "p1", coordinates := (41.3851, 2.1734), timestamp := now - 3600000, media := none },
       { id := "p2", coordinates := (41.3825, 2.1769), timestamp := now - 3000000, media := none },
       { id := "p3", coordinates := (41.3808, 2.1752), timestamp := now - 2400000, media := none }]
     distance := 4.2
     duration := 65
     thumbnail := some demo1Thumb
     kind := none, source := none, parentBundleId := none, childrenIds := none
     isFavorite := none, createdAt := none },
   { id := "demo-2"
     name := "Сибуя и Харадзюку"
     city := "Токио"
     date := "3 дек 2023"
     transportType := TransportType.walk
     points := [
       { id := "p1", coordinates := (35.6595, 139.7004), timestamp := now - 7200000, media := none },
       { id := "p2", coordinates := (35.6684, 139.7030), timestamp := now - 6000000, media := none }]
     distance := 3.1
     duration := 48
     thumbnail := some demo2Thumb
     kind := none, source := none, parentBundleId := none, childrenIds := none
     isFavorite := none, createdAt := none },
   { id := "demo-3"
     name := "Монмартр"
     city := "Париж"
     date := "20 окт 2023"
     transportType := TransportType.walk
     points := [
       { id := "p1", coordinates := (48.8867, 2.3431), timestamp := now - 10800000, media := none },
       { id := "p2", coordinates := (48.8844, 2.3404), timestamp := now - 9000000, media := none },
       { id := "p3", coordinates := (48.8861, 2.3388), timestamp := now - 7200000, media := none }]
     distance := 5.8
     duration := 92
     thumbnail := some demo3Thumb
     kind := none, source := none, parentBundleId := none, childrenIds := none
     isFavorite := none, createdAt := none }]

/-- The `routes` state initializer of `RoutesProvider`:
`safeParseRoutes(localStorage.getItem(STORAGE_KEY)) ?? initialRoutes`. -/
def routesInit (now : ℝ) (raw : RawStored) : List SavedRoute :=
  (safeParseRoutes raw).getD (initialRoutes now)

/-! ### searchPlaces in the three adapters

The external requests are modelled by outcome values: a request either fails
(network error, or a response body `JSON.parse`/property access throws — all
routes into the `catch`) or succeeds with structured result items.
`parseFloat` on the Nominatim string coordinates is an abstract
`String → ℝ` parameter. -/

/-- A geocoded place result (`SearchResult` in `src/types/routes.ts`). -/
structure SearchResult where
  name : String
  address : String
  coordinates : ℝ × ℝ

/-- The empty string. -/
def emptyStr : String := ""

/-- Comma separator used by `split(",")`. -/
def commaStr : String := ","

/-- JS `a || b` on an optional string `a`: absent and empty are falsy. -/
def jsOrStr (v : Option String) (fallback : String) : String :=
  match v with
  | some s => if s.isEmpty then fallback else s
  | none => fallback

/-- JS `s.split(",")[0]`. -/
def splitHead (s : String) : String :=
  (s.splitOn commaStr).headD emptyStr

/-- One Nominatim response item, fields as used by the Leaflet adapter. -/
structure NominatimItem where
  name : Option String
  display_name : String
  lat : String
  lon : String

/-- Outcome of the Nominatim fetch in the Leaflet adapter. -/
inductive NominatimOutcome where
  | fail
  | ok (items : List NominatimItem)

/-- `searchPlaces` of `LeafletMap.tsx`: on any thrown error the `catch`
resolves with `[]`; on success each item maps to a `SearchResult`. -/
def leafletSearchPlaces (pf : String → ℝ) (o : NominatimOutcome) :
    List SearchResult :=
  match o with
  | NominatimOutcome.fail => []
  | NominatimOutcome.ok items =>
    items.map (fun it =>
      { name := jsOrStr it.name (splitHead it.display_name)
        address := it.display_name
        coordinates := (pf it.lat, pf it.lon) })

/-- One Mapbox geocoding feature, fields as used by the Mapbox adapter. -/
structure MapboxFeature where
  text : Option String
  place_name : String
  center : ℝ × ℝ

/-- Outcome of one Mapbox geocoding fetch: failure, or a response whose
`features` field is possibly absent (`data.features?.map(...) || []`). -/
inductive MapboxOutcome where
  | fail
  | ok (features : Option (List MapboxFeature))

/-- Map one Mapbox feature to a `SearchResult` (the extra `category`/`type`
fields of the source's intermediate record are not part of `SearchResult`). -/
def mapboxFeatureResult (f : MapboxFeature) : SearchResult :=
  { name := jsOrStr f.text (splitHead f.place_name)
    address := f.place_name
    coordinates := f.center }

/-- Parse one Mapbox fetch outcome inside the `try` block: a failed fetch
throws; a response with no `features` yields `[]`. -/
def mapboxParse (o : MapboxOutcome) : Except Unit (List SearchResult) :=
  match o with
  | MapboxOutcome.fail => Except.error ()
  | MapboxOutcome.ok none => Except.ok []
  | MapboxOutcome.ok (some fs) => Except.ok (fs.map mapboxFeatureResult)

/-- Body of the Mapbox `searchPlaces` `try` block: primary fetch, then, for a
food-term query that produced no results, the unrestricted fallback fetch.
`isFoodSearch` abstracts `foodTerms.some(t => query.toLowerCase().includes(t))`;
the Cyrillic food-term list is pure data. -/
def mapboxSearchBody (isFoodSearch : Bool) (o1 o2 : MapboxOutcome) :
    Except Unit (List SearchResult) := do
  let results ← mapboxParse o1
  if isFoodSearch && results.isEmpty then mapboxParse o2
  else pure results

/-- `searchPlaces` of the Mapbox adapter: the `catch` turns any thrown error
into `[]`. -/
def mapboxSearchPlaces (isFoodSearch : Bool) (o1 o2 : MapboxOutcome) :
    List SearchResult :=
  match mapboxSearchBody isFoodSearch o1 o2 with
  | Except.ok l => l
  | Except.error _ => []

/-- One Yandex geo object, fields as used by the Yandex adapter. -/
structure YandexGeoObject where
  name : Option String
  description : Option String
  coords : ℝ × ℝ

/-- Outcome of `ymaps.geocode`: the promise rejects, or resolves with a list
of geo objects. -/
inductive GeocodeOutcome where
  | rejected
  | resolved (objs : List YandexGeoObject)

/-- `searchPlaces` of the Yandex adapter: `[]` when the map is not loaded or
`window.ymaps` is unavailable; `.catch(() => resolve([]))` on rejection;
otherwise one `SearchResult` per geo object with `|| query` / `|| ""`
fallbacks. -/
def yandexSearchPlaces (isMapLoaded ymapsAvailable : Bool) (query : String)
    (o : GeocodeOutcome) : List SearchResult :=
  if !isMapLoaded || !ymapsAvailable then []
  else
    match o with
    | GeocodeOutcome.rejected => []
    | GeocodeOutcome.resolved objs =>
      objs.map (fun g =>
        { name := jsOrStr g.name query
          address := jsOrStr g.description emptyStr
          coordinates := g.coords })

/-! ### Round-trip lemmas for the JSON encoding -/

theorem mtOfStr_mtStr (t : MediaType) : mtOfStr (mtStr t) = some t := by
  cases t <;> rfl

theorem ttOfStr_ttStr (t : TransportType) : ttOfStr (ttStr t) = some t := by
  cases t <;> rfl

theorem kindOfStr_kindStr (k : RouteKind) : kindOfStr (kindStr k) = some k := by
  cases k <;> rfl

theorem srcOfStr_srcStr (k : RouteSource) : srcOfStr (srcStr k) = some k := by
  cases k <;> rfl

theorem decodeJsonList_map_enc {α : Type} (enc : α → Json) (dec : Json → Option α)
    (h : ∀ a, dec (enc a) = some a) (l : List α) :
    decodeJsonList dec (l.map enc) = some l := by
  induction l with
  | nil => rfl
  | cons a rest ih => simp [decodeJsonList, h, ih]

theorem jGet_append (a b : List (String × Json)) (k : String) :
    jGet (a ++ b) k = (jGet a k).orElse (fun _ => jGet b k) := by
  unfold jGet
  rw [List.find?_append]
  cases a.find? (fun f => f.1 == k) <;> rfl

theorem jGet_optField_self (k : String) (x : Option Json) :
    jGet (optField k x) k = x := by
  cases x with
  | none => rfl
  | some j => simp [optField, jGet]

theorem jGet_optField_ne (k k' : String) (x : Option Json) (h : (k' == k) = false) :
    jGet (optField k' x) k = none := by
  cases x with
  | none => rfl
  | some j => simp [optField, jGet, List.find?, h]

theorem decOptField_map_enc {α : Type} (enc : α → Json) (dec : Json → Option α)
    (h : ∀ a, dec (enc a) = some a) (x : Option α) :
    decOptField dec (x.map enc) = some x := by
  cases x with
  | none => rfl
  | some a => simp [decOptField, h]

theorem decodeMedia_encodeMedia (m : MediaItem) : decodeMedia (encodeMedia m) = some m := by
  rcases m with ⟨t, u, c⟩
  cases t <;> cases c <;> rfl

theorem decodePoint_encodePoint (p : RoutePoint) : decodePoint (encodePoint p) = some p := by
  rcases p with ⟨i, co, ts, med⟩
  cases med with
  | none => rfl
  | some ms =>
    simp [encodePoint, decodePoint, jGet, optField, decOptField, List.find?,
      keyId, keyCoordinates, keyTimestamp, keyMedia, asStr, asArr, asNum,
      decodeJsonList_map_enc _ _ decodeMedia_encodeMedia]

theorem jGet_nil (k : String) : jGet [] k = none := rfl

theorem jGet_cons (k' k : String) (v : Json) (fs : List (String × Json)) :
    jGet ((k', v) :: fs) k = if (k' == k) then some v else jGet fs k := by
  unfold jGet
  cases h : (k' == k) <;> simp [List.find?, h]

theorem decodeRoute_encodeRoute (r : SavedRoute) : decodeRoute (encodeRoute r) = some r := by
  have hstr : ∀ s : String, asStr (Json.str s) = some s := fun _ => rfl
  have harr : ∀ l : List Json, asArr (Json.arr l) = some l := fun _ => rfl
  have hthumb : ∀ x : Option String, decOptField asStr (x.map Json.str) = some x :=
    decOptField_map_enc Json.str asStr hstr
  have hkind : ∀ x : Option RouteKind,
      decOptField (fun y => (asStr y).bind kindOfStr)
        (x.map (fun k => Json.str (kindStr k))) = some x :=
    decOptField_map_enc _ _ (fun k => by
      show (asStr (Json.str (kindStr k))).bind kindOfStr = some k
      rw [hstr]
      simpa using kindOfStr_kindStr k)
  have hsrc : ∀ x : Option RouteSource,
      decOptField (fun y => (asStr y).bind srcOfStr)
        (x.map (fun k => Json.str (srcStr k))) = some x :=
    decOptField_map_enc _ _ (fun k => by
      show (asStr (Json.str (srcStr k))).bind srcOfStr = some k
      rw [hstr]
      simpa using srcOfStr_srcStr k)
  have hch : ∀ x : Option (List String),
      decOptField (fun y => (asArr y).bind (decodeJsonList asStr))
        (x.map (fun l => Json.arr (l.map Json.str))) = some x :=
    decOptField_map_enc _ _ (fun l => by
      show (asArr (Json.arr (l.map Json.str))).bind (decodeJsonList asStr) = some l
      rw [harr]
      simpa using decodeJsonList_map_enc Json.str asStr hstr l)
  have hfav : ∀ x : Option Bool, decOptField asBool (x.map Json.bool) = some x :=
    decOptField_map_enc Json.bool asBool (fun _ => rfl)
  have hca : ∀ x : Option ℝ, decOptField asNum (x.map Json.num) = some x :=
    decOptField_map_enc Json.num asNum (fun _ => rfl)
  rcases r with ⟨i, nm, ct, dt, tt, ps, dist, dur, th, kd, sr, pb, ch, fav, ca⟩
  simp [encodeRoute, decodeRoute, jGet_cons, jGet_nil, jGet_append,
    jGet_optField_self, jGet_optField_ne,
    keyId, keyName, keyCity, keyDate, keyTransportType, keyPoints, keyDistance,
    keyDuration, keyThumbnail, keyKind, keySource, keyParentBundleId,
    keyChildrenIds, keyIsFavorite, keyCreatedAt,
    hstr, harr, asNum, ttOfStr_ttStr,
    decodeJsonList_map_enc _ _ decodePoint_encodePoint,
    hthumb, hkind, hsrc, hch, hfav, hca]

/-- Round trip for a whole route list: what `safeParseRoutes` makes of the
persisted value of `routes` is exactly the sanitized list. -/
theorem safeParseRoutes_persisted (routes : List SavedRoute) :
    safeParseRoutes (RawStored.parsed (encodeRoutes routes)) = some routes := by
  simp [safeParseRoutes, encodeRoutes,
    decodeJsonList_map_enc _ _ decodeRoute_encodeRoute]

/-! ### The accumulation loop equals the pairwise haversine sum -/

theorem foldl_add_map {α : Type} (f : α → ℝ) :
    ∀ (l : List α) (a : ℝ), l.foldl (fun acc x => acc + f x) a = a + (l.map f).sum
  | [], a => by simp
  | x :: l, a => by
    rw [List.foldl_cons, foldl_add_map f l (a + f x)]
    simp [add_assoc]

theorem rangeMap_sum_eq_havPairSum (pts : List (ℝ × ℝ)) :
    ((List.range (pts.length - 1)).map
      (fun j => havStep (pts.getD j (0, 0)) (pts.getD (j + 1) (0, 0)))).sum =
      havPairSum pts := by
  induction pts with
  | nil => simp [havPairSum]
  | cons p rest ih =>
    cases rest with
    | nil => simp [havPairSum]
    | cons q rest2 =>
      have hlen : ((p :: q :: rest2 : List (ℝ × ℝ))).length - 1 = rest2.length + 1 := rfl
      rw [hlen, List.range_succ_eq_map, List.map_cons, List.map_map, List.sum_cons]
      have hshift :
          ((List.range rest2.length).map
            ((fun j => havStep ((p :: q :: rest2).getD j (0, 0))
                ((p :: q :: rest2).getD (j + 1) (0, 0))) ∘ Nat.succ)) =
          ((List.range ((q :: rest2 : List (ℝ × ℝ)).length - 1)).map
            (fun j => havStep ((q :: rest2).getD j (0, 0))
              ((q :: rest2).getD (j + 1) (0, 0)))) := by
        apply List.map_congr_left
        intro j _
        simp [Function.comp, List.getD_cons_succ]
      rw [hshift, ih]
      simp [havPairSum, List.getD_cons_succ, List.getD_cons_zero]

theorem distanceLoop_eq_havPairSum (pts : List (ℝ × ℝ)) :
    distanceLoop pts = havPairSum pts := by
  unfold distanceLoop
  rw [foldl_add_map]
  rw [zero_add, rangeMap_sum_eq_havPairSum]

theorem leaflet_eq_distanceLoop (pts : List (ℝ × ℝ)) :
    leafletCalculateDistance pts = distanceLoop pts := by
  unfold leafletCalculateDistance distanceLoop
  by_cases h : pts.length < 2
  · rw [if_pos h]
    match pts, h with
    | [], _ => rfl
    | [p], _ => rfl
  · rw [if_neg h]

/-! ### The timestamp-monotonicity invariant and the reachable states -/

/-- The spec invariant: a point list is monotonically non-decreasing in time. -/
def ptsMonotone (pts : List RoutePoint) : Prop :=
  pts.Chain' (fun a b => a.timestamp ≤ b.timestamp)

/-- Every saved route has a time-monotone point list. -/
def RoutesInv (routes : List SavedRoute) : Prop :=
  ∀ r ∈ routes, ptsMonotone r.points

theorem ptsMonotone_map (f : RoutePoint → RoutePoint)
    (hf : ∀ p, (f p).timestamp = p.timestamp) (pts : List RoutePoint)
    (h : ptsMonotone pts) : ptsMonotone (pts.map f) := by
  unfold ptsMonotone at h ⊢
  rw [List.chain'_map]
  simpa [hf] using h

theorem routesInv_sanitize (routes : List SavedRoute) (h : RoutesInv routes) :
    RoutesInv (sanitizeRoutesForStorage routes) := by
  intro r' hr'
  unfold sanitizeRoutesForStorage at hr'
  rcases List.mem_map.mp hr' with ⟨r, hr, rfl⟩
  exact ptsMonotone_map
    (fun p => { p with media := p.media.map (fun ms =>
      ms.filter (fun m => !(m.url.startsWith blobScheme))) })
    (fun p => rfl) _ (h r hr)

theorem routesInv_initialRoutes (now : ℝ) : RoutesInv (initialRoutes now) := by
  intro r hr
  unfold initialRoutes at hr
  simp only [List.mem_cons, List.mem_singleton, List.not_mem_nil, or_false] at hr
  rcases hr with rfl | rfl | rfl <;>
    · unfold ptsMonotone
      simp only [List.chain'_cons, List.chain'_singleton, and_true]
      first
        | (constructor <;> linarith)
        | linarith

/-- The transitions the application actually performs on the provider state:
`startRecording` (MapTab start button), a geolocation tick appending a point
stamped `Date.now()` (all three adapters; the hypothesis `hclock` is the
assumption that the clock is monotone across callbacks), `stopRecording`
followed by no or a metadata-only `updateRoute` (MapTab save dialog, which
never updates `points`), `addMediaToPoint` (MapTab media dialog),
`deleteRoute` (saved routes list), and `clearCurrentRoute`. -/
inductive Step : ProviderState → ProviderState → Prop where
  | startRec (s : ProviderState) (now : ℝ) : Step s (startRecording now s)
  | addPoint (s : ProviderState) (id : String) (c : ℝ × ℝ) (now : ℝ)
      (hclock : ∀ p ∈ s.currentRoute, p.timestamp ≤ now) :
      Step s { s with currentRoute :=
        addPointToCurrentRoute (RoutePoint.mk id c now none) s.currentRoute }
  | stopRec (s : ProviderState) (env : RecorderEnv) : Step s (stopRecording env s).2
  | metaUpdate (s : ProviderState) (id : String) (u : RouteUpdates)
      (hpts : u.points = none) :
      Step s { s with routes := updateRoute id u s.routes }
  | doDelete (s : ProviderState) (id : String) :
      Step s { s with routes := deleteRoute id s.routes }
  | doAddMedia (s : ProviderState) (routeId pointId : String) (m : MediaItem) :
      Step s { s with routes := addMediaToPoint routeId pointId m s.routes }
  | doClearCurrent (s : ProviderState) : Step s (clearCurrentRoute s)

/-- Reachable provider states: initialization either falls back to the demo
routes (storage absent/malformed/non-array) or reads back the value the
application itself persisted from some earlier invariant-satisfying route
list (the spec's "local storage always holds the last-known route list"),
then any sequence of application transitions. -/
inductive Reachable : ProviderState → Prop where
  | initFresh (now : ℝ) (raw : RawStored) (h : safeParseRoutes raw = none) :
      Reachable ⟨routesInit now raw, [], false, none⟩
  | initStored (now : ℝ) (rs : List SavedRoute) (h : RoutesInv rs) :
      Reachable ⟨routesInit now
        (RawStored.parsed (encodeRoutes (sanitizeRoutesForStorage rs))), [], false, none⟩
  | step (s s' : ProviderState) (h : Reachable s) (hs : Step s s') : Reachable s'

theorem routesInv_deleteRoute (id : String) (routes : List SavedRoute)
    (h : RoutesInv routes) : RoutesInv (deleteRoute id routes) :=
  fun r hr => h r (List.mem_of_mem_filter hr)

theorem routesInv_addMedia (routeId pointId : String) (m : MediaItem)
    (routes : List SavedRoute) (h : RoutesInv routes) :
    RoutesInv (addMediaToPoint routeId pointId m routes) := by
  intro r' hr'
  unfold addMediaToPoint at hr'
  rcases List.mem_map.mp hr' with ⟨r, hr, rfl⟩
  cases hb : (r.id != routeId) with
  | true => simpa [hb] using h r hr
  | false =>
    simp only [hb, Bool.false_eq_true, if_false]
    exact ptsMonotone_map _
      (fun p => by cases hp : (p.id != pointId) <;> simp [hp]) _ (h r hr)

theorem routesInv_updateRoute_meta (id : String) (u : RouteUpdates)
    (routes : List SavedRoute) (hu : u.points = none) (h : RoutesInv routes) :
    RoutesInv (updateRoute id u routes) := by
  intro r' hr'
  unfold updateRoute at hr'
  rcases List.mem_map.mp hr' with ⟨r, hr, rfl⟩
  cases hb : (r.id == id) with
  | false => simpa [hb] using h r hr
  | true =>
    simp only [hb, if_true]
    show ptsMonotone (applySpread r u).points
    simp only [applySpread, hu, Option.getD_none]
    exact h r hr

theorem stateInv_stop (env : RecorderEnv) (s : ProviderState)
    (h1 : RoutesInv s.routes) (h2 : ptsMonotone s.currentRoute) :
    RoutesInv (stopRecording env s).2.routes ∧
      ptsMonotone (stopRecording env s).2.currentRoute := by
  unfold stopRecording
  by_cases hlen : s.currentRoute.length < 2
  · rw [if_pos hlen]
    exact ⟨h1, List.chain'_nil⟩
  · rw [if_neg hlen]
    refine ⟨?_, List.chain'_nil⟩
    intro r hr
    rcases List.mem_cons.mp hr with rfl | hmem
    · exact h2
    · exact h1 r hmem

/-- Invariant of all reachable provider states (workhorse for claim C3). -/
theorem reachable_inv (s : ProviderState) (h : Reachable s) :
    RoutesInv s.routes ∧ ptsMonotone s.currentRoute := by
  induction h with
  | initFresh now raw hraw =>
    refine ⟨?_, List.chain'_nil⟩
    show RoutesInv (routesInit now raw)
    unfold routesInit
    rw [hraw]
    exact routesInv_initialRoutes now
  | initStored now rs hrs =>
    refine ⟨?_, List.chain'_nil⟩
    show RoutesInv (routesInit now _)
    unfold routesInit
    rw [safeParseRoutes_persisted]
    exact routesInv_sanitize rs hrs
  | step s s' hreach hstep ih =>
    rcases ih with ⟨ih1, ih2⟩
    cases hstep with
    | startRec now => exact ⟨ih1, List.chain'_nil⟩
    | addPoint idp c now hclock =>
      refine ⟨ih1, ?_⟩
      refine List.chain'_append.mpr ⟨ih2, List.chain'_singleton _, ?_⟩
      intro x hx y hy
      have hxmem : x ∈ s.currentRoute := by
        rcases List.mem_getLast?_eq_getLast hx with ⟨hne, rfl⟩
        exact List.getLast_mem hne
      have hy' : RoutePoint.mk idp c now none = y := by simpa using hy
      rw [← hy']
      exact hclock x hxmem
    | stopRec env => exact stateInv_stop env s ih1 ih2
    | metaUpdate idp u hu =>
      exact ⟨routesInv_updateRoute_meta idp u s.routes hu ih1, ih2⟩
    | doDelete idp => exact ⟨routesInv_deleteRoute idp s.routes ih1, ih2⟩
    | doAddMedia rid pid m =>
      exact ⟨routesInv_addMedia rid pid m s.routes ih1, ih2⟩
    | doClearCurrent => exact ⟨ih1, List.chain'_nil⟩

theorem map_eq_self_of {α : Type} (f : α → α) (l : List α)
    (h : ∀ a ∈ l, f a = a) : l.map f = l := by
  induction l with
  | nil => rfl
  | cons a t ih =>
    rw [List.map_cons, h a (by simp), ih (fun b hb => h b (by simp [hb]))]

/-! ### Sample inputs used by the witness theorems -/

/-- Sample recorder environment. -/
def sampleEnv : RecorderEnv :=
  { now := 0, nowStr := "0", localeDateFull := "d", localeDateShort := "d" }

/-- Sample first recorded point. -/
def samplePointA : RoutePoint :=
  { id := "a", coordinates := (0, 0), timestamp := 0, media := none }

/-- Sample second recorded point. -/
def samplePointB : RoutePoint :=
  { id := "b", coordinates := (1, 1), timestamp := 1, media := none }

/-- Sample provider state with a two-point recording in progress. -/
def sampleRecState : ProviderState :=
  { routes := [], currentRoute := [samplePointA, samplePointB],
    isRecording := true, recordingStartTime := some 0 }

/-- Sample provider state with no recorded points. -/
def sampleEmptyState : ProviderState :=
  { routes := [], currentRoute := [], isRecording := true,
    recordingStartTime := none }

/-- Sample saved route. -/
def sampleRoute : SavedRoute :=
  { id := "r1", name := "n", city := "c", date := "d",
    transportType := TransportType.walk, points := [samplePointA],
    distance := 0, duration := 0, thumbnail := none, kind := none,
    source := none, parentBundleId := none, childrenIds := none,
    isFavorite := none, createdAt := none }

/-- Sample id matching no route. -/
def sampleOtherId : String := "zz"

/-! ### The claims -/

/-- C1: `stopRecording` returns a new route and prepends it to the routes list
iff the current recording has at least two points; with fewer it returns
`null` and leaves the routes list unchanged; in both cases the current point
sequence and the recording start time are cleared. -/
theorem claim_C1 (env : RecorderEnv) (s : ProviderState) :
    (stopRecording env s).2.currentRoute = [] ∧
    (stopRecording env s).2.recordingStartTime = none ∧
    (2 ≤ s.currentRoute.length →
      ∃ r, (stopRecording env s).1 = some r ∧
        (stopRecording env s).2.routes = r :: s.routes) ∧
    (s.currentRoute.length < 2 →
      (stopRecording env s).1 = none ∧
        (stopRecording env s).2.routes = s.routes) := by
  unfold stopRecording
  by_cases h : s.currentRoute.length < 2
  · rw [if_pos h]
    exact ⟨rfl, rfl, fun h2 => absurd h2 (by omega), fun _ => ⟨rfl, rfl⟩⟩
  · rw [if_neg h]
    exact ⟨rfl, rfl, fun _ => ⟨_, rfl, rfl⟩, fun h2 => absurd h2 h⟩

theorem claim_C1_witness :
    (2 ≤ sampleRecState.currentRoute.length ∧
      ∃ r, (stopRecording sampleEnv sampleRecState).1 = some r ∧
        (stopRecording sampleEnv sampleRecState).2.routes =
          r :: sampleRecState.routes) ∧
    (sampleEmptyState.currentRoute.length < 2 ∧
      (stopRecording sampleEnv sampleEmptyState).1 = none ∧
      (stopRecording sampleEnv sampleEmptyState).2.routes =
        sampleEmptyState.routes) :=
  ⟨⟨by decide, (claim_C1 sampleEnv sampleRecState).2.2.1 (by decide)⟩,
   ⟨by decide, (claim_C1 sampleEnv sampleEmptyState).2.2.2 (by decide)⟩⟩

/-- C2: on a recording with at least two points, the saved route's distance is
the consecutive-pair haversine sum (R = 6371) rounded to two decimals, and its
duration is the elapsed time in whole minutes (`0` with no start time). -/
theorem claim_C2 (env : RecorderEnv) (s : ProviderState)
    (h : 2 ≤ s.currentRoute.length) :
    Option.map SavedRoute.distance (stopRecording env s).1 =
      some (jsRound
        (havPairSum (s.currentRoute.map (fun p => p.coordinates)) * 100) / 100) ∧
    Option.map SavedRoute.duration (stopRecording env s).1 =
      some (match s.recordingStartTime with
        | some t0 => jsFloor ((env.now - t0) / 60000)
        | none => 0) := by
  unfold stopRecording
  rw [if_neg (by omega)]
  exact ⟨by simp [distanceLoop_eq_havPairSum], rfl⟩

theorem claim_C2_witness :
    2 ≤ sampleRecState.currentRoute.length ∧
    Option.map SavedRoute.distance (stopRecording sampleEnv sampleRecState).1 =
      some (jsRound
        (havPairSum (sampleRecState.currentRoute.map (fun p => p.coordinates))
          * 100) / 100) :=
  ⟨by decide, (claim_C2 sampleEnv sampleRecState (by decide)).1⟩

/-- C3: every reachable provider state has time-monotone point lists in every
saved route (and in the live recording), i.e. all the store operations, as the
application invokes them, preserve the monotonicity invariant. -/
theorem claim_C3 (s : ProviderState) (h : Reachable s) :
    RoutesInv s.routes ∧ ptsMonotone s.currentRoute :=
  reachable_inv s h

theorem claim_C3_witness :
    RoutesInv (ProviderState.mk (routesInit 0 RawStored.absent) [] false none).routes ∧
    ptsMonotone (ProviderState.mk (routesInit 0 RawStored.absent) [] false none).currentRoute :=
  claim_C3 _ (Reachable.initFresh 0 RawStored.absent rfl)

/-- C4: the value persisted to storage is the route list with exactly the
`blob:`-URL media removed from every point, all other fields unchanged. -/
theorem claim_C4 (st : String → RawStored) (routes : List SavedRoute) :
    persistEffect st routes storageKey =
      RawStored.parsed (encodeRoutes (sanitizeRoutesForStorage routes)) ∧
    List.Forall₂ (fun r r' =>
      r'.id = r.id ∧ r'.name = r.name ∧ r'.city = r.city ∧ r'.date = r.date ∧
      r'.transportType = r.transportType ∧ r'.distance = r.distance ∧
      r'.duration = r.duration ∧ r'.thumbnail = r.thumbnail ∧
      r'.kind = r.kind ∧ r'.source = r.source ∧
      r'.parentBundleId = r.parentBundleId ∧ r'.childrenIds = r.childrenIds ∧
      r'.isFavorite = r.isFavorite ∧ r'.createdAt = r.createdAt ∧
      List.Forall₂ (fun p p' =>
        p'.id = p.id ∧ p'.coordinates = p.coordinates ∧
        p'.timestamp = p.timestamp ∧
        p'.media = p.media.map (fun ms =>
          ms.filter (fun m => !(m.url.startsWith blobScheme))))
        r.points r'.points)
      routes (sanitizeRoutesForStorage routes) := by
  constructor
  · simp [persistEffect]
  · unfold sanitizeRoutesForStorage
    rw [List.forall₂_map_right_iff, List.forall₂_same]
    intro r hr
    refine ⟨rfl, rfl, rfl, rfl, rfl, rfl, rfl, rfl, rfl, rfl, rfl, rfl, rfl, rfl, ?_⟩
    rw [List.forall₂_map_right_iff, List.forall₂_same]
    intro p hp
    exact ⟨rfl, rfl, rfl, rfl⟩

/-- C5: after a routes change, the storage cell under `travelogue.routes.v1`
holds the serialized sanitized list (other keys untouched), and loading it
back through `safeParseRoutes` yields exactly the sanitized list. -/
theorem claim_C5 (st : String → RawStored) (routes : List SavedRoute) :
    persistEffect st routes storageKey =
      RawStored.parsed (encodeRoutes (sanitizeRoutesForStorage routes)) ∧
    (∀ k, k ≠ storageKey → persistEffect st routes k = st k) ∧
    safeParseRoutes (persistEffect st routes storageKey) =
      some (sanitizeRoutesForStorage routes) := by
  refine ⟨by simp [persistEffect], ?_, ?_⟩
  · intro k hk
    simp [persistEffect, hk]
  · simp [persistEffect, safeParseRoutes_persisted]

theorem claim_C5_witness :
    persistEffect (fun _ => RawStored.absent) [] sampleOtherId =
      (fun _ => RawStored.absent) sampleOtherId :=
  (claim_C5 (fun _ => RawStored.absent) []).2.1 sampleOtherId (by decide)

/-- C6: `calculateDistance` is the same function in the Leaflet, Yandex and
Mapbox adapters — `0` below two points, otherwise the pairwise haversine sum
with R = 6371 — and it agrees with the pre-rounding distance loop inside
`stopRecording`. -/
theorem claim_C6 (pts : List (ℝ × ℝ)) :
    leafletCalculateDistance pts = yandexCalculateDistance pts ∧
    yandexCalculateDistance pts = mapboxCalculateDistance pts ∧
    (pts.length < 2 → leafletCalculateDistance pts = 0) ∧
    (2 ≤ pts.length → leafletCalculateDistance pts = havPairSum pts) ∧
    leafletCalculateDistance pts = distanceLoop pts := by
  refine ⟨rfl, rfl, ?_, ?_, leaflet_eq_distanceLoop pts⟩
  · intro h
    unfold leafletCalculateDistance
    rw [if_pos h]
  · intro h
    rw [leaflet_eq_distanceLoop, distanceLoop_eq_havPairSum]

theorem claim_C6_witness :
    (([] : List (ℝ × ℝ)).length < 2 ∧ leafletCalculateDistance [] = 0) ∧
    (2 ≤ ([(0, 0), (1, 1)] : List (ℝ × ℝ)).length ∧
      leafletCalculateDistance [(0, 0), (1, 1)] = havPairSum [(0, 0), (1, 1)]) :=
  ⟨⟨by decide, (claim_C6 []).2.2.1 (by decide)⟩,
   ⟨by decide, (claim_C6 [(0, 0), (1, 1)]).2.2.2.1 (by decide)⟩⟩

/-- C7: `addMediaToPoint` appends the media item to the matching point of the
matching route and changes nothing else; with no matching route (or no
matching point anywhere the route matches) the list is unchanged. -/
theorem claim_C7 (routeId pointId : String) (m : MediaItem)
    (routes : List SavedRoute) :
    List.Forall₂ (fun r r' =>
      (r.id ≠ routeId → r' = r) ∧
      (r.id = routeId →
        r'.id = r.id ∧ r'.name = r.name ∧ r'.city = r.city ∧ r'.date = r.date ∧
        r'.transportType = r.transportType ∧ r'.distance = r.distance ∧
        r'.duration = r.duration ∧ r'.thumbnail = r.thumbnail ∧
        r'.kind = r.kind ∧ r'.source = r.source ∧
        r'.parentBundleId = r.parentBundleId ∧ r'.childrenIds = r.childrenIds ∧
        r'.isFavorite = r.isFavorite ∧ r'.createdAt = r.createdAt ∧
        List.Forall₂ (fun p p' =>
          (p.id ≠ pointId → p' = p) ∧
          (p.id = pointId →
            p' = { p with media := some (p.media.getD [] ++ [m]) }))
          r.points r'.points))
      routes (addMediaToPoint routeId pointId m routes) ∧
    ((∀ r ∈ routes, r.id ≠ routeId ∨ ∀ p ∈ r.points, p.id ≠ pointId) →
      addMediaToPoint routeId pointId m routes = routes) := by
  constructor
  · unfold addMediaToPoint
    rw [List.forall₂_map_right_iff, List.forall₂_same]
    intro r hr
    constructor
    · intro hne
      rw [if_pos (bne_iff_ne.mpr hne)]
    · intro heq
      rw [if_neg (by simp [heq])]
      refine ⟨rfl, rfl, rfl, rfl, rfl, rfl, rfl, rfl, rfl, rfl, rfl, rfl, rfl, rfl, ?_⟩
      rw [List.forall₂_map_right_iff, List.forall₂_same]
      intro p hp
      constructor
      · intro hpne
        rw [if_pos (bne_iff_ne.mpr hpne)]
      · intro hpeq
        rw [if_neg (by simp [hpeq])]
  · intro h
    unfold addMediaToPoint
    apply map_eq_self_of
    intro r hr
    rcases h r hr with hne | hpts
    · rw [if_pos (bne_iff_ne.mpr hne)]
    · by_cases hid : r.id = routeId
      · rw [if_neg (by simp [hid])]
        have : r.points.map (fun point =>
            if point.id != pointId then point
            else { point with media := some (point.media.getD [] ++ [m]) }) =
            r.points := by
          apply map_eq_self_of
          intro p hp
          rw [if_pos (bne_iff_ne.mpr (hpts p hp))]
        rw [this]
      · rw [if_pos (bne_iff_ne.mpr hid)]

theorem claim_C7_witness :
    addMediaToPoint sampleOtherId sampleOtherId
      (MediaItem.mk MediaType.photo emptyStr none) [sampleRoute] =
      [sampleRoute] :=
  (claim_C7 sampleOtherId sampleOtherId
    (MediaItem.mk MediaType.photo emptyStr none) [sampleRoute]).2
    (by decide)

/-- C8: with storage absent, malformed, or a non-array the provider falls back
to the three demo routes; a stored empty array is accepted as the empty list. -/
theorem claim_C8 (now : ℝ) :
    routesInit now RawStored.absent = initialRoutes now ∧
    routesInit now RawStored.malformed = initialRoutes now ∧
    (∀ j : Json, (∀ xs, j ≠ Json.arr xs) →
      routesInit now (RawStored.parsed j) = initialRoutes now) ∧
    routesInit now (RawStored.parsed (Json.arr [])) = [] := by
  refine ⟨rfl, rfl, ?_, rfl⟩
  intro j hj
  cases j with
  | arr xs => exact absurd rfl (hj xs)
  | null => rfl
  | bool b => rfl
  | num x => rfl
  | str s => rfl
  | obj fs => rfl

theorem claim_C8_witness :
    routesInit 0 (RawStored.parsed Json.null) = initialRoutes 0 :=
  (claim_C8 0).2.2.1 Json.null (fun _ h => Json.noConfusion h)

/-- C9: `searchPlaces` never rejects: every failure outcome resolves to `[]`
in all three adapters, and the Yandex adapter also resolves `[]` whenever the
map or `window.ymaps` is not yet available. -/
theorem claim_C9 :
    (∀ pf : String → ℝ, leafletSearchPlaces pf NominatimOutcome.fail = []) ∧
    (∀ (food : Bool) (o2 : MapboxOutcome),
      mapboxSearchPlaces food MapboxOutcome.fail o2 = []) ∧
    mapboxSearchPlaces true (MapboxOutcome.ok none) MapboxOutcome.fail = [] ∧
    (∀ (y : Bool) (q : String) (o : GeocodeOutcome),
      yandexSearchPlaces false y q o = []) ∧
    (∀ (l : Bool) (q : String) (o : GeocodeOutcome),
      yandexSearchPlaces l false q o = []) ∧
    (∀ q : String, yandexSearchPlaces true true q GeocodeOutcome.rejected = []) := by
  refine ⟨fun _ => rfl, fun food o2 => rfl, rfl, fun y q o => rfl,
    fun l q o => ?_, fun q => rfl⟩
  cases l <;> rfl

/-- C10: `deleteRoute` removes exactly the routes with the given id, keeps the
rest in order, and is the identity when no route matches. -/
theorem claim_C10 (id : String) (routes : List SavedRoute) :
    (∀ r, r ∈ deleteRoute id routes ↔ r ∈ routes ∧ r.id ≠ id) ∧
    (deleteRoute id routes).Sublist routes ∧
    ((∀ r ∈ routes, r.id ≠ id) → deleteRoute id routes = routes) := by
  refine ⟨?_, List.filter_sublist _, ?_⟩
  · intro r
    unfold deleteRoute
    rw [List.mem_filter, bne_iff_ne]
  · intro h
    unfold deleteRoute
    exact List.filter_eq_self.mpr (fun a ha => bne_iff_ne.mpr (h a ha))

theorem claim_C10_witness :
    deleteRoute sampleOtherId [sampleRoute] = [sampleRoute] :=
  (claim_C10 sampleOtherId [sampleRoute]).2.2 (by decide)

end Travelogue
